import Mathlib

/-!
Shallow embedding of the client-side live channel manager
(`useInsydSocket` hook): connection supervisor, heartbeat monitor,
reconnection policy, message dispatcher, plus the context wrapper.

Modelling conventions:
* React `useState`/`useRef` cells become fields of `MgrState`.
* Each WebSocket handle ever created is recorded in `sockets` with its
  current ready state; `wsRef` stores the id of the current handle
  (`none` when the ref is null).
* Timers are ids drawn from a counter; `heartbeatRef`/`retryRef` hold
  the pending timer id, `none` when the ref is null/cleared.  A timer
  can fire only while its id is held in the corresponding ref.
* `retryDelay` records the millisecond delay passed to `setTimeout`
  for the pending reconnect, mirroring the `delay` local.
* The auth guard `!isAuthenticated || !user?.userId` is collapsed into
  a single boolean `auth` (both fields come from the same auth store).
* The handlers installed on a socket stay attached to it for its whole
  life, also after `cleanup` nulls `wsRef`: browser events
  (open/message/close/error) are delivered per socket, gated only by
  that socket's own ready state, and run the shared handler bodies.
  `close()` moves a CONNECTING/OPEN handle to CLOSING; the close event
  itself arrives later and moves it to CLOSED, firing `onclose` exactly
  once.  `wasClean` is a free event parameter (the network decides it),
  so the model's traces are a superset of the browser's.
-/

/-- `WSStatus` from the source. -/
inductive WSStatus where
  | connecting
  | connected
  | disconnected
  | error
deriving DecidableEq, Repr

/-- Ready state of one WebSocket handle.  CLOSING means `close()` was
called but the close event has not been delivered yet; CLOSED means the
close event has fired (it fires exactly once). -/
inductive ReadyState where
  | CONNECTING
  | OPEN
  | CLOSING
  | CLOSED
deriving DecidableEq, Repr

/-- One WebSocket handle created by `new WebSocket(wsUrl)`. -/
structure Socket where
  id : Nat
  readyState : ReadyState
deriving DecidableEq, Repr

/-- A successfully parsed inbound frame, classified by its `type` field. -/
inductive Frame where
  | notification (id title body : Option String)
  | pong
  | other (t : String)
deriving DecidableEq, Repr

/-- The state of one live channel manager instance: the two `useState`
cells (`status`, `unread`) and the five refs of the hook, plus the
socket table and fresh-id counters. -/
structure MgrState where
  status : WSStatus
  unread : Nat
  sockets : List Socket
  wsRef : Option Nat
  heartbeatRef : Option Nat
  retryRef : Option Nat
  retryDelay : Option Nat
  retries : Nat
  isConnecting : Bool
  nextSocketId : Nat
  nextTimerId : Nat
deriving DecidableEq, Repr

/-- Initial state of the hook: `useState('disconnected')`, `useState(0)`,
all refs null, `retriesRef` 0, `isConnectingRef` false. -/
def init : MgrState :=
  { status := .disconnected, unread := 0, sockets := [], wsRef := none,
    heartbeatRef := none, retryRef := none, retryDelay := none,
    retries := 0, isConnecting := false, nextSocketId := 0, nextTimerId := 0 }

/-- Ready state of the socket with the given id, if it exists. -/
def sockState (s : MgrState) (sid : Nat) : Option ReadyState :=
  (s.sockets.find? (fun sock => sock.id == sid)).map Socket.readyState

/-- `wsRef.current?.readyState`. -/
def readyStateOf (s : MgrState) : Option ReadyState :=
  s.wsRef.bind (sockState s)

/-- `ws.close(...)` called by the client: a CONNECTING or OPEN handle
starts closing (its close event stays pending); on CLOSING/CLOSED the
call is a no-op. -/
def clientClose (sid : Nat) (socks : List Socket) : List Socket :=
  socks.map (fun sock =>
    if sock.id = sid ∧ (sock.readyState = .CONNECTING ∨ sock.readyState = .OPEN)
    then { sock with readyState := .CLOSING } else sock)

/-- The browser delivers the close event: the handle becomes CLOSED
just before its `onclose` handler runs. -/
def sockClosed (sid : Nat) (socks : List Socket) : List Socket :=
  socks.map (fun sock =>
    if sock.id = sid then { sock with readyState := .CLOSED } else sock)

/-- Mark the socket with the given id as open (the browser moves the
handle to OPEN just before firing `onopen`). -/
def openSock (sid : Nat) (socks : List Socket) : List Socket :=
  socks.map (fun sock =>
    if sock.id = sid then { sock with readyState := .OPEN } else sock)

/-- `cleanup`: clear the heartbeat interval, clear the retry timeout,
close and null the socket handle, reset the connecting flag and set
status to `disconnected`. -/
def cleanup (s : MgrState) : MgrState :=
  { s with
      heartbeatRef := none,
      retryRef := none,
      retryDelay := none,
      sockets :=
        match s.wsRef with
        | some sid => clientClose sid s.sockets
        | none => s.sockets,
      wsRef := none,
      isConnecting := false,
      status := .disconnected }

/-- `startHeartbeat`: clear any existing interval and install a fresh
15s interval (the single ref slot makes the clear an overwrite). -/
def startHeartbeat (s : MgrState) : MgrState :=
  { s with heartbeatRef := some s.nextTimerId, nextTimerId := s.nextTimerId + 1 }

/-- The tail of `connect` after its guards: set status `connecting`,
raise the connecting flag and store a fresh WebSocket handle
(`new WebSocket(wsUrl)`, modelled as always succeeding). -/
def connectFresh (s1 : MgrState) : MgrState :=
  { s1 with
      status := .connecting,
      isConnecting := true,
      sockets := s1.sockets ++ [⟨s1.nextSocketId, .CONNECTING⟩],
      wsRef := some s1.nextSocketId,
      nextSocketId := s1.nextSocketId + 1 }

/-- `connect`: no-op without an authenticated identity, while already
connecting, or while the current handle is OPEN; otherwise clean up any
existing handle, then create a fresh one. -/
def connect (auth : Bool) (s : MgrState) : MgrState :=
  if auth = false then s
  else if s.isConnecting = true then s
  else if readyStateOf s = some .OPEN then s
  else connectFresh (if s.wsRef.isSome then cleanup s else s)

/-- `Math.min(1000 * Math.pow(2, n - 1), 30000)` with `n` the value of
`retriesRef.current` after the increment. -/
def backoffDelay (n : Nat) : Nat :=
  min (1000 * 2 ^ (n - 1)) 30000

/-- `ws.onopen`: status `connected`, connecting flag down, retry counter
reset to 0, heartbeat started. -/
def handleOpen (s : MgrState) : MgrState :=
  startHeartbeat { s with status := .connected, isConnecting := false, retries := 0 }

/-- `ws.onmessage`: `none` stands for a payload `JSON.parse` rejects
(the catch block only logs); a `notification` frame increments the
unread count (the desktop alert is an external side effect); `pong` and
unknown types are logged and ignored. -/
def handleMessage (s : MgrState) (raw : Option Frame) : MgrState :=
  match raw with
  | none => s
  | some (.notification _ _ _) => { s with unread := s.unread + 1 }
  | some .pong => s
  | some (.other _) => s

/-- `ws.onclose`: drop the connecting flag, clear the heartbeat; on an
unclean close below the 5-retry ceiling while authenticated, bump the
counter and schedule a reconnect after the backoff delay; otherwise set
the final status and null the handle. -/
def handleClose (auth : Bool) (s : MgrState) (wasClean : Bool) : MgrState :=
  let s0 := { s with isConnecting := false, heartbeatRef := none }
  if wasClean = false ∧ s0.retries < 5 ∧ auth = true then
    let r := s0.retries + 1
    { s0 with
        retries := r,
        status := .connecting,
        retryRef := some s0.nextTimerId,
        retryDelay := some (backoffDelay r),
        nextTimerId := s0.nextTimerId + 1 }
  else
    { s0 with
        status := if wasClean then .disconnected else .error,
        wsRef := none }

/-- `ws.onerror`: status `error`, connecting flag down. -/
def handleError (s : MgrState) : MgrState :=
  { s with status := .error, isConnecting := false }

/-- `resetUnread`: set the unread count to 0. -/
def resetUnread (s : MgrState) : MgrState :=
  { s with unread := 0 }

/-- The observable events of one manager instance: the exposed calls
(`connect`, `cleanup`, `resetUnread`, `send`) and the asynchronous
callbacks (socket events of the current handle, timer fires). -/
inductive Event where
  | connectCall
  | cleanupCall
  | resetCall
  | sendCall
  | openEvt (sid : Nat)
  | messageEvt (sid : Nat) (raw : Option Frame)
  | closeEvt (sid : Nat) (wasClean : Bool)
  | errorEvt (sid : Nat)
  | heartbeatFire (tid : Nat)
  | retryFire (tid : Nat)
deriving DecidableEq, Repr

/-- One step of the manager.  Socket callbacks run for any handle ever
created — the source never detaches its handlers and never checks
inside them whether the firing socket is still the one in `wsRef` — so
a stale handle's events still mutate the shared refs and state.  They
are gated only by the firing socket's own ready state: `onopen` fires
from CONNECTING, `onmessage` while OPEN, `onclose` exactly once for a
handle not yet CLOSED, `onerror` for any existing handle.  Timer
callbacks run only while their id is still held by the corresponding
ref.  The heartbeat tick and `send` only write to the wire, so they
leave the manager state unchanged. -/
def step (auth : Bool) (s : MgrState) (e : Event) : MgrState :=
  match e with
  | .connectCall => connect auth s
  | .cleanupCall => cleanup s
  | .resetCall => resetUnread s
  | .sendCall => s
  | .openEvt sid =>
      if sockState s sid = some .CONNECTING then
        handleOpen { s with sockets := openSock sid s.sockets }
      else s
  | .messageEvt sid raw =>
      if sockState s sid = some .OPEN then
        handleMessage s raw
      else s
  | .closeEvt sid wasClean =>
      if sockState s sid = some .CONNECTING ∨ sockState s sid = some .OPEN ∨
         sockState s sid = some .CLOSING then
        handleClose auth { s with sockets := sockClosed sid s.sockets } wasClean
      else s
  | .errorEvt sid =>
      if (sockState s sid).isSome = true then
        handleError s
      else s
  | .heartbeatFire tid =>
      if s.heartbeatRef = some tid then s else s
  | .retryFire tid =>
      if s.retryRef = some tid then
        connect auth { s with retryRef := none, retryDelay := none }
      else s

/-- Run a sequence of events from a state. -/
def run (auth : Bool) (s : MgrState) (es : List Event) : MgrState :=
  es.foldl (step auth) s

/-- Claim C10: postcondition of `cleanup` from every prior state,
including status `error`: status is `disconnected`, the socket handle
and both timer handles are null, and the connecting flag is false. -/
theorem c10_cleanup_postcondition :
    ∀ s : MgrState,
      (cleanup s).status = .disconnected ∧
      (cleanup s).wsRef = none ∧
      (cleanup s).heartbeatRef = none ∧
      (cleanup s).retryRef = none ∧
      (cleanup s).isConnecting = false ∧
      (cleanup { s with status := .error }).status = .disconnected := by
  intro s
  simp [cleanup]

/-- Claim C8: a frame whose payload fails to parse is dropped: the step
leaves the whole manager state (status, unread count, socket table,
handle, timers, counters) unchanged, and the step is total, so nothing
escapes to the hosting page. -/
theorem c8_parse_failure_noop :
    ∀ (auth : Bool) (s : MgrState) (sid : Nat),
      step auth s (.messageEvt sid none) = s := by
  intro auth s sid
  simp only [step]
  split
  · rfl
  · rfl

/-- `connect` never touches the unread count (its internal `cleanup`
does not either). -/
theorem connect_unread_eq (auth : Bool) (s : MgrState) :
    (connect auth s).unread = s.unread := by
  simp only [connect]
  split_ifs <;> rfl

/-- Claim C2: the reconnection policy's delay for attempt `n`
(1-indexed) is `min(1000 * 2^(n-1), 30000)` ms; in particular
`delay(1)=1000`, `delay(5)=16000`, `delay(7)=30000`; and the delay the
close handler actually passes to the retry timer at the `n`-th
consecutive unclean close is exactly `backoffDelay n`. -/
theorem c2_backoff_delay :
    (∀ n : Nat, backoffDelay n = min (1000 * 2 ^ (n - 1)) 30000) ∧
    backoffDelay 1 = 1000 ∧ backoffDelay 5 = 16000 ∧ backoffDelay 7 = 30000 ∧
    (∀ (auth : Bool) (s : MgrState) (sid : Nat),
      auth = true → s.retries < 5 → s.wsRef = some sid →
      (sockState s sid = some .CONNECTING ∨ sockState s sid = some .OPEN) →
      (step auth s (.closeEvt sid false)).retryDelay =
        some (backoffDelay (s.retries + 1)) ∧
      (step auth s (.closeEvt sid false)).retries = s.retries + 1) := by
  refine ⟨fun n => rfl, by decide, by decide, by decide, ?_⟩
  intro auth s sid ha hr _hw hs
  simp only [step]
  rw [if_pos (hs.elim Or.inl (fun h => Or.inr (Or.inl h)))]
  simp [handleClose, hr, ha]

/-- Witness for C2 at a concrete state: the first unclean close after
the initial `connect()` schedules a retry with delay `backoffDelay 1`. -/
theorem c2_backoff_delay_witness :
    (step true (run true init [Event.connectCall]) (.closeEvt 0 false)).retryDelay
      = some (backoffDelay ((run true init [Event.connectCall]).retries + 1)) :=
  (c2_backoff_delay.2.2.2.2 true (run true init [Event.connectCall]) 0 rfl
    (by decide) (by decide) (by decide)).1

/-- The event is a successfully parsed `notification` frame delivery. -/
def isNotifMsg (e : Event) : Prop :=
  ∃ sid i t b, e = .messageEvt sid (some (.notification i t b))

/-- Claim C5: the unread count changes only these ways: every step
leaves it unchanged, increments it by exactly 1 on a `notification`
frame, or zeroes it on `resetUnread`; and `resetUnread` is idempotent
and applicable in every state. -/
theorem c5_unread_monotone :
    ∀ (auth : Bool) (s : MgrState) (e : Event),
      ((step auth s e).unread = s.unread ∨
       ((step auth s e).unread = s.unread + 1 ∧ isNotifMsg e) ∨
       ((step auth s e).unread = 0 ∧ e = .resetCall)) ∧
      resetUnread (resetUnread s) = resetUnread s ∧
      (step auth s .resetCall).unread = 0 := by
  intro auth s e
  refine ⟨?_, rfl, rfl⟩
  cases e with
  | connectCall => exact Or.inl (connect_unread_eq auth s)
  | cleanupCall => exact Or.inl rfl
  | resetCall => exact Or.inr (Or.inr ⟨rfl, rfl⟩)
  | sendCall => exact Or.inl rfl
  | openEvt sid =>
      simp only [step]
      split
      · exact Or.inl rfl
      · exact Or.inl rfl
  | messageEvt sid raw =>
      simp only [step]
      split
      · cases raw with
        | none => exact Or.inl rfl
        | some f =>
            cases f with
            | notification i t b =>
                exact Or.inr (Or.inl ⟨rfl, ⟨sid, i, t, b, rfl⟩⟩)
            | pong => exact Or.inl rfl
            | other t => exact Or.inl rfl
      · exact Or.inl rfl
  | closeEvt sid wasClean =>
      simp only [step]
      split
      · simp only [handleClose]
        split
        · exact Or.inl rfl
        · exact Or.inl rfl
      · exact Or.inl rfl
  | errorEvt sid =>
      simp only [step]
      split
      · exact Or.inl rfl
      · exact Or.inl rfl
  | heartbeatFire tid =>
      refine Or.inl ?_
      simp only [step, ite_self]
  | retryFire tid =>
      simp only [step]
      split
      · exact Or.inl (connect_unread_eq auth _)
      · exact Or.inl rfl

/-- The notification frame of Scenario B. -/
def notifN1 : Frame := .notification (some "n1") (some "X") none

/-- Scenario B trace: connect, socket opens, then the same
notification frame (same id) is delivered twice. -/
def scenarioB : List Event :=
  [.connectCall, .openEvt 0,
   .messageEvt 0 (some notifN1), .messageEvt 0 (some notifN1)]

/-- Counterexample to claim C6: after receiving the identical-id
notification frame twice on an open channel, the unread count is 2, not
1 — the dispatcher does not deduplicate by message id. -/
theorem c6_counterexample :
    (run true init scenarioB).unread = 2 ∧
    ¬ (run true init scenarioB).unread = 1 := by
  decide

/-- Claim C6 (amended): every notification frame delivered on the open
channel increments the unread count by exactly 1, regardless of any
previously received ids; the message id only feeds the desktop alert's
`tag` (platform-side alert replacement), not the unread count. -/
theorem c6_no_unread_dedup :
    ∀ (auth : Bool) (s : MgrState) (sid : Nat) (i t b : Option String),
      s.wsRef = some sid → sockState s sid = some .OPEN →
      (step auth s (.messageEvt sid (some (.notification i t b)))).unread
        = s.unread + 1 := by
  intro auth s sid i t b _hw hs
  simp only [step]
  rw [if_pos hs]
  rfl

/-- Witness for amended C6: the second delivery of the Scenario B frame
also increments the count (from 1 to 2). -/
theorem c6_no_unread_dedup_witness :
    (step true (run true init [Event.connectCall, Event.openEvt 0, Event.messageEvt 0 (some notifN1)])
        (.messageEvt 0 (some notifN1))).unread
      = (run true init [Event.connectCall, Event.openEvt 0, Event.messageEvt 0 (some notifN1)]).unread + 1 :=
  c6_no_unread_dedup true _ 0 (some "n1") (some "X") none (by decide) (by decide)

/-- `connect` never touches the retry counter (its internal `cleanup`
does not either): only a successful open resets it. -/
theorem connect_retries_eq (auth : Bool) (s : MgrState) :
    (connect auth s).retries = s.retries := by
  simp only [connect]
  split_ifs <;> rfl

/-- The dispatcher never touches the retry counter. -/
theorem handleMessage_retries_eq (s : MgrState) (raw : Option Frame) :
    (handleMessage s raw).retries = s.retries := by
  cases raw with
  | none => rfl
  | some f => cases f <;> rfl

/-- When every socket ever created is CLOSED, `sockState` can only
report CLOSED. -/
theorem sockState_of_all_closed (s : MgrState) (sid : Nat)
    (hall : ∀ sock ∈ s.sockets, sock.readyState = ReadyState.CLOSED) :
    ∀ rs, sockState s sid = some rs → rs = ReadyState.CLOSED := by
  intro rs hrs
  unfold sockState at hrs
  rw [Option.map_eq_some'] at hrs
  obtain ⟨sock, hfind, hmap⟩ := hrs
  rw [← hmap]
  exact hall sock (List.mem_of_find?_eq_some hfind)

/-- In a state where every socket has already delivered its close event
and no timer is pending, every event other than the external calls
`connect()`, `cleanup()` and `resetUnread()` leaves the state unchanged
(the error handler can still run on an existing handle, but in a state
it fixes). -/
theorem quiescent_step (auth : Bool) (s : MgrState) (e : Event)
    (hall : ∀ sock ∈ s.sockets, sock.readyState = ReadyState.CLOSED)
    (_hh : s.heartbeatRef = none) (hr : s.retryRef = none)
    (herr : handleError s = s)
    (h1 : e ≠ .connectCall) (h2 : e ≠ .cleanupCall) (h3 : e ≠ .resetCall) :
    step auth s e = s := by
  cases e with
  | connectCall => exact absurd rfl h1
  | cleanupCall => exact absurd rfl h2
  | resetCall => exact absurd rfl h3
  | sendCall => rfl
  | openEvt sid =>
      simp only [step]
      split
      · rename_i hg
        exact absurd (sockState_of_all_closed s sid hall _ hg) (by decide)
      · rfl
  | messageEvt sid raw =>
      simp only [step]
      split
      · rename_i hg
        exact absurd (sockState_of_all_closed s sid hall _ hg) (by decide)
      · rfl
  | closeEvt sid wasClean =>
      simp only [step]
      split
      · rename_i hg
        rcases hg with hg | hg | hg <;>
          exact absurd (sockState_of_all_closed s sid hall _ hg) (by decide)
      · rfl
  | errorEvt sid =>
      simp only [step]
      split
      · exact herr
      · rfl
  | heartbeatFire tid => simp [step]
  | retryFire tid => simp [step, hr]

/-- A quiescent state stays fixed under any run of non-call events. -/
theorem quiescent_run (auth : Bool) (es : List Event) :
    ∀ s : MgrState,
      (∀ sock ∈ s.sockets, sock.readyState = ReadyState.CLOSED) →
      s.heartbeatRef = none → s.retryRef = none →
      handleError s = s →
      (∀ e ∈ es, e ≠ Event.connectCall ∧ e ≠ Event.cleanupCall ∧ e ≠ Event.resetCall) →
      run auth s es = s := by
  induction es with
  | nil => intro s _ _ _ _ _; rfl
  | cons e es ih =>
      intro s hall hh hr herr hes
      have h := hes e (List.mem_cons_self e es)
      have hstep : step auth s e = s :=
        quiescent_step auth s e hall hh hr herr h.1 h.2.1 h.2.2
      show run auth (step auth s e) es = s
      rw [hstep]
      exact ih s hall hh hr herr (fun e' he' => hes e' (List.mem_cons_of_mem e he'))

/-- Five consecutive unclean closes, starting from a fresh connect: the
initial attempt fails, then each scheduled retry attempt fails in turn. -/
def uncleanTrace5 : List Event :=
  [.connectCall, .closeEvt 0 false, .retryFire 0, .closeEvt 1 false, .retryFire 1,
   .closeEvt 2 false, .retryFire 2, .closeEvt 3 false, .retryFire 3, .closeEvt 4 false]

/-- The same run continued: the fifth scheduled retry attempt also
fails uncleanly — six consecutive unclean closes in total. -/
def uncleanTrace6 : List Event :=
  uncleanTrace5 ++ [.retryFire 4, .closeEvt 5 false]

/-- Counterexample to claim C3: after exactly 5 consecutive unclean
closes with no intervening successful open, the status is `connecting`
(a fifth retry is scheduled), not `error`. -/
theorem c3_counterexample :
    (run true init uncleanTrace5).status = .connecting ∧
    ¬ (run true init uncleanTrace5).status = .error ∧
    (run true init uncleanTrace5).retryRef = some 4 ∧
    (run true init uncleanTrace5).retries = 5 := by
  decide

/-- Claim C3 (amended): only after the 6th consecutive unclean close
(the initial attempt plus its 5 scheduled retries all failing) does the
status become `error`; in that state no retry or heartbeat timer is
pending and no socket handle is held, so no event other than an
external `connect()` / `cleanup()` / `resetUnread()` call ever changes
the state again — in particular no automatic reconnect is ever
scheduled. -/
theorem c3_retry_ceiling :
    (run true init uncleanTrace6).status = .error ∧
    (run true init uncleanTrace6).retryRef = none ∧
    (run true init uncleanTrace6).heartbeatRef = none ∧
    (run true init uncleanTrace6).wsRef = none ∧
    ∀ es : List Event,
      (∀ e ∈ es, e ≠ Event.connectCall ∧ e ≠ Event.cleanupCall ∧ e ≠ Event.resetCall) →
      run true (run true init uncleanTrace6) es = run true init uncleanTrace6 := by
  refine ⟨by decide, by decide, by decide, by decide, ?_⟩
  intro es hes
  exact quiescent_run true es (run true init uncleanTrace6)
    (by decide) (by decide) (by decide) (by decide) hes

/-- Witness for amended C3: after exhaustion, a further unclean-close
event and a stale retry-timer fire change nothing. -/
theorem c3_retry_ceiling_witness :
    run true (run true init uncleanTrace6) [Event.closeEvt 5 false, Event.retryFire 4]
      = run true init uncleanTrace6 :=
  c3_retry_ceiling.2.2.2.2 [Event.closeEvt 5 false, Event.retryFire 4] (by decide)

/-- Counterexample to claim C4: a transport error event arriving while
zero reconnect attempts have failed (retry counter 0, far below the
ceiling) already sets the exposed status to `error` — the `onerror`
handler does not consult the retry counter. -/
theorem c4_counterexample :
    (run true init [Event.connectCall]).retries = 0 ∧
    (step true (run true init [Event.connectCall]) (.errorEvt 0)).status = .error := by
  decide

/-- Claim C4 (amended): on the unclean-close path the status becomes
`error` only after exhaustion — an unclean close while authenticated
and below the 5-retry ceiling sets status `connecting` and schedules a
retry — but the error-event handler sets status `error` unconditionally,
regardless of how many attempts have failed. -/
theorem c4_transport_failure_status :
    ∀ (auth : Bool) (s : MgrState) (sid : Nat),
      (auth = true → s.retries < 5 → s.wsRef = some sid →
        (sockState s sid = some .CONNECTING ∨ sockState s sid = some .OPEN) →
        (step auth s (.closeEvt sid false)).status = .connecting ∧
        (step auth s (.closeEvt sid false)).retryRef = some s.nextTimerId) ∧
      (s.wsRef = some sid → (sockState s sid).isSome = true →
        (step auth s (.errorEvt sid)).status = .error) := by
  intro auth s sid
  constructor
  · intro ha hr _hw hs
    simp only [step]
    rw [if_pos (hs.elim Or.inl (fun h => Or.inr (Or.inl h)))]
    simp [handleClose, hr, ha]
  · intro _hw hs
    simp only [step]
    rw [if_pos hs]
    rfl

/-- Witness for amended C4: the first unclean close after the initial
`connect()` yields status `connecting`, and an error event in the same
state yields status `error`. -/
theorem c4_transport_failure_status_witness :
    (step true (run true init [Event.connectCall]) (.closeEvt 0 false)).status
        = WSStatus.connecting ∧
    (step true (run true init [Event.connectCall]) (.errorEvt 0)).status
        = WSStatus.error :=
  ⟨((c4_transport_failure_status true (run true init [Event.connectCall]) 0).1
      rfl (by decide) (by decide) (by decide)).1,
   (c4_transport_failure_status true (run true init [Event.connectCall]) 0).2
      (by decide) (by decide)⟩

/-- Ten events: five unclean closes, then the fifth scheduled retry
fires, leaving a sixth connection attempt in flight with the retry
counter at the ceiling. -/
def atCeilingTrace : List Event :=
  uncleanTrace5 ++ [.retryFire 4]

/-- Counterexample to claim C9: with the retry counter at the ceiling
(5), a further genuine unclean close — genuinely processed, as the
status change to `error` shows — does not increment the counter. -/
theorem c9_counterexample :
    (run true init atCeilingTrace).retries = 5 ∧
    (step true (run true init atCeilingTrace) (.closeEvt 5 false)).retries = 5 ∧
    (step true (run true init atCeilingTrace) (.closeEvt 5 false)).status = .error := by
  decide

/-- The event is an `onopen` delivery. -/
def isOpenEvtOf (e : Event) : Prop :=
  ∃ sid, e = .openEvt sid

/-- The event is an unclean `onclose` delivery. -/
def isUncleanCloseOf (e : Event) : Prop :=
  ∃ sid, e = .closeEvt sid false

/-- Claim C9 (amended): the retry counter is reset to 0 exactly on
successful opens and incremented exactly on unclean closes that occur
while authenticated and strictly below the 5-retry ceiling; no other
operation changes it — in particular a fresh `connect()` (identity or
visibility triggered) and `cleanup()` leave it untouched. -/
theorem c9_retry_counter :
    ∀ (auth : Bool) (s : MgrState) (e : Event),
      ((step auth s e).retries = s.retries ∨
       ((step auth s e).retries = 0 ∧ isOpenEvtOf e) ∨
       ((step auth s e).retries = s.retries + 1 ∧ isUncleanCloseOf e ∧
         s.retries < 5 ∧ auth = true)) ∧
      (∀ sid, s.wsRef = some sid → sockState s sid = some .CONNECTING →
        (step auth s (.openEvt sid)).retries = 0) ∧
      (∀ sid, s.wsRef = some sid →
        (sockState s sid = some .CONNECTING ∨ sockState s sid = some .OPEN) →
        s.retries < 5 → auth = true →
        (step auth s (.closeEvt sid false)).retries = s.retries + 1) := by
  intro auth s e
  refine ⟨?_, ?_, ?_⟩
  · cases e with
    | connectCall => exact Or.inl (connect_retries_eq auth s)
    | cleanupCall => exact Or.inl rfl
    | resetCall => exact Or.inl rfl
    | sendCall => exact Or.inl rfl
    | openEvt sid =>
        simp only [step]
        split
        · exact Or.inr (Or.inl ⟨rfl, ⟨sid, rfl⟩⟩)
        · exact Or.inl rfl
    | messageEvt sid raw =>
        simp only [step]
        split
        · exact Or.inl (handleMessage_retries_eq s raw)
        · exact Or.inl rfl
    | closeEvt sid wasClean =>
        simp only [step]
        split
        · simp only [handleClose]
          split
          · rename_i hcond
            refine Or.inr (Or.inr ⟨rfl, ⟨sid, ?_⟩, hcond.2.1, hcond.2.2⟩)
            rw [hcond.1]
          · exact Or.inl rfl
        · exact Or.inl rfl
    | errorEvt sid =>
        simp only [step]
        split
        · exact Or.inl rfl
        · exact Or.inl rfl
    | heartbeatFire tid =>
        refine Or.inl ?_
        simp only [step, ite_self]
    | retryFire tid =>
        simp only [step]
        split
        · exact Or.inl (connect_retries_eq auth _)
        · exact Or.inl rfl
  · intro sid _hw hs
    simp only [step]
    rw [if_pos hs]
    rfl
  · intro sid _hw hs hr ha
    simp only [step]
    rw [if_pos (hs.elim Or.inl (fun h => Or.inr (Or.inl h)))]
    simp [handleClose, hr, ha]

/-- Witness for amended C9: the first unclean close after the initial
`connect()` increments the counter from 0 to 1, and a successful open
resets it to 0. -/
theorem c9_retry_counter_witness :
    (step true (run true init [Event.connectCall]) (.closeEvt 0 false)).retries
        = (run true init [Event.connectCall]).retries + 1 ∧
    (step true (run true init [Event.connectCall]) (.openEvt 0)).retries = 0 :=
  ⟨(c9_retry_counter true (run true init [Event.connectCall]) (.closeEvt 0 false)).2.2 0
      (by decide) (by decide) (by decide) rfl,
   (c9_retry_counter true (run true init [Event.connectCall]) (.openEvt 0)).2.1 0
      (by decide) (by decide)⟩


/-- `connect` is a no-op while a connect attempt is in flight: the
synchronous guard of the source does hold. -/
theorem connect_noop_of_connecting (auth : Bool) (s : MgrState)
    (h : s.isConnecting = true) : connect auth s = s := by
  unfold connect
  by_cases ha : auth = false
  · rw [if_pos ha]
  · rw [if_neg ha, if_pos h]

/-- `connect` is a no-op while the current handle is OPEN. -/
theorem connect_noop_of_open (auth : Bool) (s : MgrState)
    (h : readyStateOf s = some ReadyState.OPEN) : connect auth s = s := by
  unfold connect
  by_cases ha : auth = false
  · rw [if_pos ha]
  · by_cases hc : s.isConnecting = true
    · rw [if_neg ha, if_pos hc]
    · rw [if_neg ha, if_neg hc, if_pos h]

/-- The identity-change race: handle 0 opens; teardown (`cleanup`)
cleanly closes it and a fresh `connect()` creates handle 1; the stale
handle 0's clean close event (code 1000 handshake completed, so
`wasClean` is true) then runs the shared `onclose` handler, whose else
branch nulls `wsRef` and drops the connecting flag; a further
`connect()` (visibility change) therefore creates handle 2 while
handle 1 is still connecting; both handshakes then complete. -/
def doubleOpenTrace : List Event :=
  [.connectCall, .openEvt 0, .cleanupCall, .connectCall, .closeEvt 0 true,
   .connectCall, .openEvt 1, .openEvt 2]

/-- Claim C1 fails on the code: after the identity-change race, two
distinct channel handles are OPEN at the same instant — the handlers
never check whether their socket is still the one in `wsRef`, so the
stale close resurrects a second connect path. -/
theorem c1_two_open_handles :
    ((run true init doubleOpenTrace).sockets.filter
        (fun sock => sock.readyState == ReadyState.OPEN)).length = 2 ∧
    (⟨1, ReadyState.OPEN⟩ : Socket) ∈ (run true init doubleOpenTrace).sockets ∧
    (⟨2, ReadyState.OPEN⟩ : Socket) ∈ (run true init doubleOpenTrace).sockets := by
  decide

/-- The teardown race of C7: `cleanup()` is called while handle 0 is
still CONNECTING, so the handshake is aborted and its close event is
delivered later with `wasClean` false. -/
def teardownRaceTrace : List Event :=
  [.connectCall, .cleanupCall]

/-- Claim C7 fails on the code: when `cleanup` returns, no timer is
pending — but the torn-down handle's unclean close event then runs the
shared `onclose` handler, which arms a fresh retry timer (status back
to `connecting`), and that timer fires `connect()`, creating a second
handle after teardown. -/
theorem c7_retry_after_teardown :
    (run true init teardownRaceTrace).retryRef = none ∧
    (run true init teardownRaceTrace).heartbeatRef = none ∧
    (run true init (teardownRaceTrace ++ [Event.closeEvt 0 false])).retryRef = some 0 ∧
    (run true init (teardownRaceTrace ++ [Event.closeEvt 0 false])).status = .connecting ∧
    (run true init (teardownRaceTrace ++
        [Event.closeEvt 0 false, Event.retryFire 0])).sockets.length = 2 := by
  decide
